import Mathlib

/-!
Verification of `center_xsf.py`: an XSF (XCrySDen Structure Format) processor
that re-centers a 3D datagrid by a periodic half-extent shift, rescales it,
and strips force columns from the PRIMCOORD block.

The Python source is shallowly embedded below.  Text lines are `String`s,
machine floats are modelled as exact rationals `ℚ`, numpy arrays are (nested)
lists, and the hand-rolled parsing state machine of `process_xsf` is a
fuel-indexed structural recursion over the line list.  Fatal paths (printed
error + early `return`, or an unhandled Python exception) are an `Except`.
-/

/-- Substring containment, modelling Python's `pat in s`. -/
def strContains (s pat : String) : Bool :=
  (List.range (s.length + 1)).any fun i => pat.data.isPrefixOf (s.data.drop i)

/-- Character-level whitespace tokenizer: `acc` holds the (reversed) current
token. -/
def wsSplit : List Char → List Char → List (List Char)
  | [], acc => if acc = [] then [] else [acc.reverse]
  | c :: rest, acc =>
    if c.isWhitespace then
      if acc = [] then wsSplit rest [] else acc.reverse :: wsSplit rest []
    else wsSplit rest (c :: acc)

/-- Whitespace tokenization, modelling Python's `str.split()` with no
arguments: split on runs of whitespace, no empty tokens. -/
def splitWS (s : String) : List String :=
  (wsSplit s.data []).map String.mk

/-- Python `str.strip()`: drop leading and trailing whitespace. -/
def pyStrip (s : String) : String :=
  String.mk (((s.data.dropWhile (·.isWhitespace)).reverse.dropWhile
    (·.isWhitespace)).reverse)

/-- Python `str.startswith(pat)`. -/
def strStartsWith (s pat : String) : Bool :=
  pat.data.isPrefixOf s.data

/-- Join with a separator (Python `sep.join(parts)`). -/
def joinSep (sep : String) : List String → String
  | [] => ""
  | [x] => x
  | x :: rest => x ++ sep ++ joinSep sep rest

/-- Value of a digit character. -/
def digVal (c : Char) : Nat := c.toNat - 48

/-- All characters are decimal digits and there is at least one:
the body of a Python `int` literal. -/
def digitsVal (cs : List Char) : Option Nat :=
  if cs = [] ∨ ¬ cs.all (·.isDigit) then none
  else some (cs.foldl (fun a c => a * 10 + digVal c) 0)

/-- Model of Python `int(token)` for whitespace-free tokens: optional sign
followed by decimal digits.  (Underscore separators and non-ASCII digits,
which CPython also accepts, are outside the model; no input in this
development uses them.) -/
def pyInt (s : String) : Option Int :=
  match s.data with
  | [] => none
  | '+' :: rest => (digitsVal rest).map fun n => (n : Int)
  | '-' :: rest => (digitsVal rest).map fun n => -(n : Int)
  | cs => (digitsVal cs).map fun n => (n : Int)

/-- Numeric value of a digit list (0 when empty). -/
def digitsNum (cs : List Char) : Nat :=
  cs.foldl (fun a c => a * 10 + digVal c) 0

/-- Unsigned decimal body with optional fraction and exponent:
`digits [. digits]` or `. digits`, optionally followed by `e`/`E` and a
signed integer exponent. -/
def pyFloatBody (cs : List Char) : Option ℚ :=
  let ip := cs.takeWhile (·.isDigit)
  let rest := cs.dropWhile (·.isDigit)
  let mantissa : List Char → List Char → Option ℚ := fun i f =>
    if i = [] ∧ f = [] then none
    else some ((digitsNum i : ℚ) + (digitsNum f : ℚ) / 10 ^ f.length)
  let expo : List Char → Option Int := fun e =>
    match e with
    | '+' :: ds => (digitsVal ds).map fun n => (n : Int)
    | '-' :: ds => (digitsVal ds).map fun n => -(n : Int)
    | ds => (digitsVal ds).map fun n => (n : Int)
  match rest with
  | [] => mantissa ip []
  | '.' :: rest2 =>
    let fp := rest2.takeWhile (·.isDigit)
    let rest3 := rest2.dropWhile (·.isDigit)
    match rest3 with
    | [] => mantissa ip fp
    | e :: rest4 =>
      if e = 'e' ∨ e = 'E' then
        match mantissa ip fp, expo rest4 with
        | some m, some x => some (m * 10 ^ x)
        | _, _ => none
      else none
  | e :: rest4 =>
    if e = 'e' ∨ e = 'E' then
      match mantissa ip [], expo rest4 with
      | some m, some x => some (m * 10 ^ x)
      | _, _ => none
    else none

/-- Model of Python `float(token)` for whitespace-free numeric tokens,
valued in exact rationals.  (`inf`/`nan` spellings are outside the model.) -/
def pyFloat (s : String) : Option ℚ :=
  match s.data with
  | [] => none
  | '+' :: rest => pyFloatBody rest
  | '-' :: rest => (pyFloatBody rest).map Neg.neg
  | cs => pyFloatBody cs

/-- `np.array(tokens, dtype=float)`: every token must parse. -/
def floatList (ts : List String) : Option (List ℚ) :=
  match ts with
  | [] => some []
  | t :: rest =>
    match pyFloat t, floatList rest with
    | some v, some vs => some (v :: vs)
    | _, _ => none

/-- `tuple(map(int, tokens))`: every token must parse, first failure raises. -/
def intList (ts : List String) : Option (List Int) :=
  match ts with
  | [] => some []
  | t :: rest =>
    match pyInt t, intList rest with
    | some v, some vs => some (v :: vs)
    | _, _ => none

/-- Flat (Fortran-order) index of grid point `(x, y, z)`:
`x + y*nx + z*nx*ny`. -/
def fIdx (nx ny x y z : Nat) : Nat := x + y * nx + z * (nx * ny)

/-- `data_flat.reshape((nx, ny, nz), order='F')`: nested lists, axis 0
outermost, element `[x][y][z]` drawn from flat index `x + y*nx + z*nx*ny`. -/
def reshapeF (nx ny nz : Nat) (d : List ℚ) : List (List (List ℚ)) :=
  (List.range nx).map fun x => (List.range ny).map fun y =>
    (List.range nz).map fun z => d.getD (fIdx nx ny x y z) 0

/-- One axis of `np.roll`: rotate right by `s` positions, implemented as the
slice concatenation numpy performs. -/
def rotRight (s : Nat) (l : List α) : List α :=
  l.drop (l.length - s % l.length) ++ l.take (l.length - s % l.length)

/-- `np.roll(a, shift=(sx, sy, sz), axis=(0, 1, 2))` on a nested-list 3D
array. -/
def roll3 (sx sy sz : Nat) (a : List (List (List ℚ))) : List (List (List ℚ)) :=
  (rotRight sx a).map fun p => (rotRight sy p).map fun r => rotRight sz r

/-- `.flatten(order='F')` of an `(nx, ny, nz)` nested-list array: flat entry
`k` is element `[k % nx][(k / nx) % ny][k / (nx*ny)]`. -/
def flattenF (nx ny nz : Nat) (a : List (List (List ℚ))) : List ℚ :=
  (List.range (nx * ny * nz)).map fun k =>
    ((a.getD (k % nx) []).getD (k / nx % ny) []).getD (k / (nx * ny)) 0

/-- `a * factor` broadcast over the nested-list 3D array. -/
def scale3 (c : ℚ) (a : List (List (List ℚ))) : List (List (List ℚ)) :=
  a.map fun p => p.map fun r => r.map fun v => v * c

/-- `np.max(np.abs(values))` for a (nonempty) value list; `0` on the empty
list, which the pipeline below never passes here. -/
def maxAbs (d : List ℚ) : ℚ :=
  (d.map fun x => |x|).foldr max 0

/-- Data point count reconciliation (source lines 214-223): truncate from the
end if excess, pad at the end with the literal token `"0.0"` if deficient.
Operates on raw string tokens, before any numeric parsing. -/
def reconcile (total : Nat) (toks : List String) : List String :=
  if toks.length ≠ total then
    if toks.length > total then toks.take total
    else toks ++ List.replicate (total - toks.length) "0.0"
  else toks

/-- The reconciled data, numerically parsed (reconciliation first, then
`np.array(..., dtype=float)`). -/
def loadData (total : Nat) (toks : List String) : Option (List ℚ) :=
  floatList (reconcile total toks)

/-- Scale factor selection (source lines 253-258): the caller-supplied factor
if any, else `10.0 / m` when the post-shift max magnitude `m` is positive,
else `10.0`. -/
def autoScale (sf : Option ℚ) (m : ℚ) : ℚ :=
  match sf with
  | some f => f
  | none => if 0 < m then 10 / m else 10
/-- The `ELEMENTS` table: atomic number to element symbol (1-118). -/
def elementSymbol (n : Int) : Option String :=
  match n with
  | 1 => some "H"
  | 2 => some "He"
  | 3 => some "Li"
  | 4 => some "Be"
  | 5 => some "B"
  | 6 => some "C"
  | 7 => some "N"
  | 8 => some "O"
  | 9 => some "F"
  | 10 => some "Ne"
  | 11 => some "Na"
  | 12 => some "Mg"
  | 13 => some "Al"
  | 14 => some "Si"
  | 15 => some "P"
  | 16 => some "S"
  | 17 => some "Cl"
  | 18 => some "Ar"
  | 19 => some "K"
  | 20 => some "Ca"
  | 21 => some "Sc"
  | 22 => some "Ti"
  | 23 => some "V"
  | 24 => some "Cr"
  | 25 => some "Mn"
  | 26 => some "Fe"
  | 27 => some "Co"
  | 28 => some "Ni"
  | 29 => some "Cu"
  | 30 => some "Zn"
  | 31 => some "Ga"
  | 32 => some "Ge"
  | 33 => some "As"
  | 34 => some "Se"
  | 35 => some "Br"
  | 36 => some "Kr"
  | 37 => some "Rb"
  | 38 => some "Sr"
  | 39 => some "Y"
  | 40 => some "Zr"
  | 41 => some "Nb"
  | 42 => some "Mo"
  | 43 => some "Tc"
  | 44 => some "Ru"
  | 45 => some "Rh"
  | 46 => some "Pd"
  | 47 => some "Ag"
  | 48 => some "Cd"
  | 49 => some "In"
  | 50 => some "Sn"
  | 51 => some "Sb"
  | 52 => some "Te"
  | 53 => some "I"
  | 54 => some "Xe"
  | 55 => some "Cs"
  | 56 => some "Ba"
  | 57 => some "La"
  | 58 => some "Ce"
  | 59 => some "Pr"
  | 60 => some "Nd"
  | 61 => some "Pm"
  | 62 => some "Sm"
  | 63 => some "Eu"
  | 64 => some "Gd"
  | 65 => some "Tb"
  | 66 => some "Dy"
  | 67 => some "Ho"
  | 68 => some "Er"
  | 69 => some "Tm"
  | 70 => some "Yb"
  | 71 => some "Lu"
  | 72 => some "Hf"
  | 73 => some "Ta"
  | 74 => some "W"
  | 75 => some "Re"
  | 76 => some "Os"
  | 77 => some "Ir"
  | 78 => some "Pt"
  | 79 => some "Au"
  | 80 => some "Hg"
  | 81 => some "Tl"
  | 82 => some "Pb"
  | 83 => some "Bi"
  | 84 => some "Po"
  | 85 => some "At"
  | 86 => some "Rn"
  | 87 => some "Fr"
  | 88 => some "Ra"
  | 89 => some "Ac"
  | 90 => some "Th"
  | 91 => some "Pa"
  | 92 => some "U"
  | 93 => some "Np"
  | 94 => some "Pu"
  | 95 => some "Am"
  | 96 => some "Cm"
  | 97 => some "Bk"
  | 98 => some "Cf"
  | 99 => some "Es"
  | 100 => some "Fm"
  | 101 => some "Md"
  | 102 => some "No"
  | 103 => some "Lr"
  | 104 => some "Rf"
  | 105 => some "Db"
  | 106 => some "Sg"
  | 107 => some "Bh"
  | 108 => some "Hs"
  | 109 => some "Mt"
  | 110 => some "Ds"
  | 111 => some "Rg"
  | 112 => some "Cn"
  | 113 => some "Nh"
  | 114 => some "Fl"
  | 115 => some "Mc"
  | 116 => some "Lv"
  | 117 => some "Ts"
  | 118 => some "Og"
  | _ => none

/-- Outcome of a fatal path in `process_xsf`: `msg` is a printed descriptive
error followed by an early `return`; `exn` is an unhandled Python exception
escaping the function.  Either way no output file is produced. -/
inductive PErr where
  | msg : String → PErr
  | exn : String → PErr
deriving DecidableEq, Repr

/-- The mutable locals of the parsing loop of `process_xsf`
(source lines 53-66). -/
structure ParseState where
  header : List String := []
  footer : List String := []
  blockStart : Option String := none
  gridHeader : List String := []
  blockEnd : Option String := none
  dataStr : List String := []
  dims : Option (List Int) := none
  targetName : Option String := none
  inBlock : Bool := false
  inTarget : Bool := false
  foundTarget : Bool := false
  curBlock : List String := []
  warnings : List String := []
deriving DecidableEq, Repr

/-- The inner scan `while i < len(lines) and "END_DATAGRID_3D" not in
lines[i]` (source lines 133-137 and 152-154): returns the scanned lines and
the index of the terminating line (or `lines.length` if none).  Fuel-indexed
so that it is structural; any fuel at least `lines.length` is exact. -/
def scanTo (lines : List String) : Nat → Nat → List String × Nat
  | 0, i => ([], i)
  | fuel + 1, i =>
    if i < lines.length then
      if strContains (lines.getD i "") "END_DATAGRID_3D" then ([], i)
      else
        let r := scanTo lines fuel (i + 1)
        (lines.getD i "" :: r.1, r.2)
    else ([], i)

/-- `grid_dimensions = tuple(map(int, dim_line.split()))` (source line 123):
a token that `int` rejects raises an unhandled `ValueError`. -/
def parseDims (dimLine : String) : Except PErr (List Int) :=
  match intList (splitWS dimLine) with
  | some ds => .ok ds
  | none => .error (.exn "ValueError: invalid literal for int")

/-- `Nx, Ny, Nz = grid_dimensions` (source line 207): unpacking a tuple whose
arity is not 3 raises an unhandled `ValueError`. -/
def unpack3 (ds : List Int) : Except PErr (Int × Int × Int) :=
  match ds with
  | [a, b, c] => .ok (a, b, c)
  | _ => .error (.exn "ValueError: cannot unpack grid_dimensions into Nx, Ny, Nz")

/-- One-word grid-name heuristic (source line 82): the line after
`BEGIN_BLOCK_DATAGRID_3D` names the grid when it has exactly one
whitespace token not containing `BEGIN_DATAGRID_3D`. -/
def isNameLine (pn : String) : Bool :=
  (splitWS pn).length = 1 ∧ ¬ strContains pn "BEGIN_DATAGRID_3D"

/-- The parsing loop of `process_xsf` (source lines 69-198), one constructor
case per branch of the Python `while`.  Fuel-indexed structural recursion;
every iteration advances the cursor by at least one line, so fuel
`lines.length + 1` is exact (`parsePhase` below). -/
def parseLoop (lines : List String) (dname : Option String) :
    Nat → Nat → ParseState → Except PErr ParseState
  | 0, _, s => .ok s
  | fuel + 1, i, s =>
    if i < lines.length then
      let line := lines.getD i ""
      if strContains line "BEGIN_BLOCK_DATAGRID_3D" then
        let s := { s with inBlock := true, curBlock := [line] }
        if i + 1 < lines.length then
          let pn := lines.getD (i + 1) ""
          if isNameLine pn then
            let gname := pyStrip pn
            let s := { s with curBlock := s.curBlock ++ [gname] }
            let s :=
              if ¬ s.foundTarget ∧ (dname = none ∨ dname = some gname) then
                { s with inTarget := true, foundTarget := true,
                         targetName := some gname, blockStart := some line }
              else { s with inTarget := false }
            parseLoop lines dname fuel (i + 2) s
          else
            let s :=
              if ¬ s.foundTarget ∧ dname = none then
                { s with inTarget := true, foundTarget := true,
                         targetName := some "DATAGRID_3D", blockStart := some line }
              else { s with inTarget := false }
            parseLoop lines dname fuel (i + 1) s
        else
          parseLoop lines dname fuel (i + 1) s
      else if strContains line "BEGIN_DATAGRID_3D" ∧ s.inBlock then
        let s := { s with curBlock := s.curBlock ++ [line] }
        if s.inTarget then
          let s := { s with
            targetName :=
              if s.targetName = none ∨ s.targetName = some "DATAGRID_3D" then
                some "DATAGRID_3D"
              else s.targetName,
            gridHeader := s.gridHeader ++ [line] }
          if i + 5 < lines.length then
            let dimLine := lines.getD (i + 1) ""
            let s := { s with gridHeader := s.gridHeader ++ [dimLine] }
            match parseDims dimLine with
            | .error e => .error e
            | .ok ds =>
              let vecs := [lines.getD (i + 2) "", lines.getD (i + 3) "",
                           lines.getD (i + 4) "", lines.getD (i + 5) ""]
              let s := { s with dims := some ds,
                                gridHeader := s.gridHeader ++ vecs,
                                curBlock := s.curBlock ++ vecs }
              let r := scanTo lines lines.length (i + 6)
              let s := { s with curBlock := s.curBlock ++ r.1,
                                dataStr := s.dataStr ++ r.1.flatMap splitWS }
              if r.2 < lines.length then
                let endLine := lines.getD r.2 ""
                let s := { s with gridHeader := s.gridHeader ++ [endLine],
                                  curBlock := s.curBlock ++ [endLine] }
                parseLoop lines dname fuel (r.2 + 1) s
              else
                .error (.msg "Error: XSF file format error, missing END_DATAGRID_3D")
          else
            .error (.msg "Error: XSF file format error, missing grid dimension/vector info")
        else
          let r := scanTo lines lines.length (i + 1)
          let s := { s with curBlock := s.curBlock ++ r.1 }
          if r.2 < lines.length then
            let s := { s with curBlock := s.curBlock ++ [lines.getD r.2 ""] }
            parseLoop lines dname fuel (r.2 + 1) s
          else
            let s := { s with warnings :=
              s.warnings ++ ["Warning: Non-target DATAGRID_3D block seems incomplete."] }
            parseLoop lines dname fuel r.2 s
      else if strContains line "END_BLOCK_DATAGRID_3D" ∧ s.inBlock then
        let s := { s with curBlock := s.curBlock ++ [line] }
        let s :=
          if s.inTarget then { s with blockEnd := some line, inTarget := false }
          else if s.foundTarget then { s with footer := s.footer ++ s.curBlock }
          else { s with header := s.header ++ s.curBlock }
        parseLoop lines dname fuel (i + 1) { s with inBlock := false, curBlock := [] }
      else if s.inBlock then
        parseLoop lines dname fuel (i + 1) { s with curBlock := s.curBlock ++ [line] }
      else
        let s :=
          if s.foundTarget then { s with footer := s.footer ++ [line] }
          else { s with header := s.header ++ [line] }
        parseLoop lines dname fuel (i + 1) s
    else
      .ok s

/-- The whole parse phase of `process_xsf` on an in-memory line list. -/
def parsePhase (lines : List String) (dname : Option String) :
    Except PErr ParseState :=
  parseLoop lines dname (lines.length + 1) 0 {}

/-- Round to the nearest integer, ties to even (the rounding Python applies
when formatting). -/
def rndHalfEven (q : ℚ) : Int :=
  let f := ⌊q⌋
  let r := q - (f : ℚ)
  if r < 1 / 2 then f
  else if 1 / 2 < r then f + 1
  else if f % 2 = 0 then f else f + 1

/-- Decimal digits of `n`, left-padded with zeros to width `w`. -/
def padZeros (w : Nat) (n : Nat) : String :=
  let s := toString n
  String.mk (List.replicate (w - s.length) '0') ++ s

/-- Left-aligned field of width `w` (Python `s:<w`): pad right with spaces,
never truncate. -/
def padRightSp (s : String) (w : Nat) : String :=
  s ++ String.mk (List.replicate (w - s.length) ' ')

/-- Right-aligned field of width `w` (Python `s:>w`). -/
def padLeftSp (s : String) (w : Nat) : String :=
  String.mk (List.replicate (w - s.length) ' ') ++ s

/-- Python `.9f` fixed-point formatting of an exact rational. -/
def formatF9 (q : ℚ) : String :=
  let sgn := if q < 0 then "-" else ""
  let n := (rndHalfEven (|q| * 10 ^ 9)).toNat
  sgn ++ toString (n / 10 ^ 9) ++ "." ++ padZeros 9 (n % 10 ^ 9)

/-- Python `.8E` scientific formatting of an exact rational. -/
def formatE8 (q : ℚ) : String :=
  if q = 0 then "0.00000000E+00"
  else
    let sgn := if q < 0 then "-" else ""
    let a := |q|
    let e0 : Int := (Nat.log 10 a.num.natAbs : Int) - (Nat.log 10 a.den : Int)
    let e1 : Int := if a < (10 : ℚ) ^ e0 then e0 - 1 else e0
    let n0 := (rndHalfEven (a * (10 : ℚ) ^ ((8 : Int) - e1))).toNat
    let n := if n0 = 10 ^ 9 then 10 ^ 8 else n0
    let e := if n0 = 10 ^ 9 then e1 + 1 else e1
    let ds := toString n
    let esgn := if e < 0 then "-" else "+"
    sgn ++ ds.take 1 ++ "." ++ ds.drop 1 ++ "E" ++ esgn ++ padZeros 2 e.natAbs

/-- Atom-type canonicalization (source lines 340-348): a type token that
parses as an integer present in the `ELEMENTS` table is replaced by the
symbol, otherwise kept verbatim. -/
def atomTypeOf (p0 : String) : String :=
  match pyInt p0 with
  | some n =>
    match elementSymbol n with
    | some sym => sym
    | none => p0
  | none => p0

/-- Atom coordinate line rewriting (source lines 334-361) on the token list
of the line: with at least 4 tokens whose coordinate columns parse, re-emit
as `two spaces, type left-aligned in 3, then each coordinate right-aligned
in 14 with 9 decimals`, dropping all columns beyond the fourth; otherwise
pass the original line through. -/
def rewriteAtomParts (line : String) (parts : List String) : String :=
  match parts with
  | p0 :: p1 :: p2 :: p3 :: _ =>
    match pyFloat p1, pyFloat p2, pyFloat p3 with
    | some x, some y, some z =>
      "  " ++ padRightSp (atomTypeOf p0) 3 ++ " " ++ padLeftSp (formatF9 x) 14
        ++ " " ++ padLeftSp (formatF9 y) 14 ++ " " ++ padLeftSp (formatF9 z) 14
    | _, _, _ => line
  | _ => line

/-- Atom line rewriting on a raw line. -/
def rewriteAtomLine (line : String) : String :=
  rewriteAtomParts line (splitWS line)

/-- PRIMCOORD count-line handling (source lines 313-332).  Returns the
emitted line, the `in_primcoord` flag after, the header-processed flag
after, and the atom count after.  A count token `int` rejects is the
caught exception path: original line, abandon PRIMCOORD tracking. -/
def processCountLine (prevCount : Int) (line : String) :
    String × Bool × Bool × Int :=
  match splitWS line with
  | [] => (line, true, true, prevCount)
  | p0 :: rest =>
    match pyInt p0 with
    | none => (line, false, false, prevCount)
    | some n =>
      if rest.headD "" = "1" then
        ("  " ++ padRightSp p0 4 ++ " " ++ padLeftSp "0" 5, true, true, n)
      else (line, true, true, n)

/-- The mutable locals of the header-rewriting pass of the writer
(source lines 274-283). -/
structure WrState where
  out : List String := []
  inPrimvec : Bool := false
  primvecLines : List String := []
  primvecCount : Nat := 0
  inPrimcoord : Bool := false
  headerProcessed : Bool := false
  atomCount : Int := 0
  linesProcessed : Nat := 0
deriving DecidableEq, Repr

/-- One header line of the writer pass (source lines 285-373).  Python
indexes `primvec_lines[1:4]` when the capture count reaches 3 and would
raise `IndexError` were the list shorter (only reachable when a second
`PRIMVEC` marker interrupts a capture, a corner no claim touches); the
plain tail is used here. -/
def headerStep (st : WrState) (line : String) : WrState :=
  if strContains line "PRIMVEC" then
    { st with inPrimvec := true, primvecLines := [line], out := st.out ++ [line] }
  else if st.inPrimvec then
    let pl := st.primvecLines ++ [line]
    let c := st.primvecCount + 1
    if c = 3 then
      { st with inPrimvec := false, primvecLines := pl, primvecCount := c,
                out := st.out ++ [line] ++ ["CONVVEC"] ++ pl.drop 1 }
    else
      { st with primvecLines := pl, primvecCount := c, out := st.out ++ [line] }
  else if strContains line "PRIMCOORD" then
    { st with inPrimcoord := true, out := st.out ++ [line] }
  else if st.inPrimcoord then
    if ¬ st.headerProcessed then
      let r := processCountLine st.atomCount line
      { st with out := st.out ++ [r.1], inPrimcoord := r.2.1,
                headerProcessed := r.2.2.1, atomCount := r.2.2.2 }
    else if (st.linesProcessed : Int) < st.atomCount then
      let lp := st.linesProcessed + 1
      { st with out := st.out ++ [rewriteAtomLine line], linesProcessed := lp,
                inPrimcoord := (lp : Int) != st.atomCount }
    else
      { st with inPrimcoord := false, out := st.out ++ [line] }
  else
    { st with out := st.out ++ [line] }

/-- The full header-rewriting pass. -/
def rewriteHeader (hl : List String) : List String :=
  (hl.foldl headerStep {}).out

/-- Six data values per output line (source line 394). -/
def chunk6 : List ℚ → List (List ℚ)
  | [] => []
  | a :: b :: c :: d :: e :: f :: rest => [a, b, c, d, e, f] :: chunk6 rest
  | l => [l]

/-- Data rows: 6 values per line, `.8E` formatted, space separated. -/
def dataLines (d : List ℚ) : List String :=
  (chunk6 d).map fun c => joinSep " " (c.map formatE8)

/-- The writer (source lines 272-418) as the output line list. -/
def renderOutput (st : ParseState) (scaledFlat : List ℚ) : List String :=
  rewriteHeader st.header
    ++ (match st.blockStart with | some b => [b] | none => [])
    ++ (match st.targetName with
        | some n => if strStartsWith n "BEGIN_DATAGRID_3D" then [] else [n]
        | none => [])
    ++ st.gridHeader.dropLast
    ++ dataLines scaledFlat
    ++ (if st.gridHeader ≠ [] ∧ strStartsWith (pyStrip (st.gridHeader.getLastD "")) "END_DATAGRID_3D"
        then [st.gridHeader.getLastD ""] else ["END_DATAGRID_3D"])
    ++ (match st.blockEnd with | some b => [b] | none => [])
    ++ st.footer

/-- The whole `process_xsf` pipeline on an in-memory line list: parse, data
reconciliation and numeric load, periodic shift, scaling, render.  Every
fatal path is an `Except.error`; output lines exist only on `Except.ok`.
numpy's semantics for a negative parsed dimension (reshape `-1` inference)
are outside the model; no claim involves one. -/
def processXsf (lines : List String) (dname : Option String) (sf : Option ℚ) :
    Except PErr (List String) :=
  match parsePhase lines dname with
  | .error e => .error e
  | .ok st =>
    if ¬ st.foundTarget then
      .error (.msg "Error: Target datagrid not found.")
    else
      match st.dims with
      | none => .error (.msg "Error: Dimensions for target datagrid could not be parsed.")
      | some ds =>
        match unpack3 ds with
        | .error e => .error e
        | .ok (nx, ny, nz) =>
          if nx < 0 ∨ ny < 0 ∨ nz < 0 then
            .error (.exn "model boundary: negative grid dimension")
          else
            let Nx := nx.toNat
            let Ny := ny.toNat
            let Nz := nz.toNat
            let total := Nx * Ny * Nz
            match loadData total st.dataStr with
            | none => .error (.msg "Error during data processing: could not convert string to float")
            | some data =>
              if total = 0 then
                .error (.exn "ValueError: zero-size array to reduction operation maximum")
              else
                let shifted := roll3 (Nx / 2) (Ny / 2) (Nz / 2) (reshapeF Nx Ny Nz data)
                let m := maxAbs (flattenF Nx Ny Nz shifted)
                let factor := autoScale sf m
                let scaledFlat := flattenF Nx Ny Nz (scale3 factor shifted)
                .ok (renderOutput st scaledFlat)

/-- The tool on an optional input file (`none` models `FileNotFoundError`,
source lines 45-51). -/
def runTool (file : Option (List String)) (dname : Option String) (sf : Option ℚ) :
    Except PErr (List String) :=
  match file with
  | none => .error (.msg "Error: Input file not found.")
  | some lines => processXsf lines dname sf

/-- Decidable equality of results, used to settle concrete runs. -/
instance {ε α : Type} [DecidableEq ε] [DecidableEq α] : DecidableEq (Except ε α) :=
  fun a b =>
    match a, b with
    | .ok x, .ok y =>
      if h : x = y then isTrue (by rw [h])
      else isFalse fun hh => h (by cases hh; rfl)
    | .error x, .error y =>
      if h : x = y then isTrue (by rw [h])
      else isFalse fun hh => h (by cases hh; rfl)
    | .ok _, .error _ => isFalse fun hh => Except.noConfusion hh
    | .error _, .ok _ => isFalse fun hh => Except.noConfusion hh

/-- Concrete flat data for an all-even 2x2x2 grid. -/
def qDat8 : List ℚ := [1, 2, 3, 4, 5, 6, 7, 8]

/-- Six supplied tokens for an 8-point grid. -/
def toks6 : List String := ["1.0", "2.0", "3.0", "4.0", "5.0", "6.0"]

/-- Ten supplied tokens for an 8-point grid. -/
def toks10 : List String :=
  ["1.0", "2.0", "3.0", "4.0", "5.0", "6.0", "7.0", "8.0", "9.0", "10.0"]

/-- A file whose target grid parses, followed by a non-target grid block that
has no `END_DATAGRID_3D` before end of file; `ORPHAN_LINE` is part of the
incomplete block's body. -/
def cex6 : List String :=
  ["X",
   "BEGIN_BLOCK_DATAGRID_3D", "g1", "BEGIN_DATAGRID_3D_g1",
   "1 1 1", "0 0 0", "1 0 0", "0 1 0", "0 0 1", "5.0",
   "END_DATAGRID_3D", "END_BLOCK_DATAGRID_3D",
   "BEGIN_BLOCK_DATAGRID_3D", "g2", "BEGIN_DATAGRID_3D_g2",
   "1 1 1", "ORPHAN_LINE", "END_BLOCK_DATAGRID_3D"]

/-- A file with two grid blocks named `density` and `potential`. -/
def twoBlocks : List String :=
  ["HDR",
   "BEGIN_BLOCK_DATAGRID_3D", "density", "BEGIN_DATAGRID_3D_density",
   "2 2 2", "0 0 0", "1 0 0", "0 1 0", "0 0 1",
   "1.0 2.0 3.0 4.0", "5.0 6.0 7.0 8.0",
   "END_DATAGRID_3D", "END_BLOCK_DATAGRID_3D",
   "BEGIN_BLOCK_DATAGRID_3D", "potential", "BEGIN_DATAGRID_3D_potential",
   "2 2 2", "0 0 0", "1 0 0", "0 1 0", "0 0 1",
   "10.0 20.0 30.0 40.0", "50.0 60.0 70.0 80.0",
   "END_DATAGRID_3D", "END_BLOCK_DATAGRID_3D",
   "TAIL"]

/-- A file with no grid block at all. -/
def c7NoTarget : List String := ["ATOMS"]

/-- A target block selected at `BEGIN_BLOCK_DATAGRID_3D` whose
`BEGIN_DATAGRID_3D` line never appears, so no dimensions are parsed. -/
def c7NoDims : List String :=
  ["BEGIN_BLOCK_DATAGRID_3D", "g", "END_BLOCK_DATAGRID_3D"]

/-- A target block with no `END_DATAGRID_3D` before end of file. -/
def c7MissingEnd : List String :=
  ["BEGIN_BLOCK_DATAGRID_3D", "g", "BEGIN_DATAGRID_3D_g",
   "1 1 1", "0 0 0", "1 0 0", "0 1 0", "0 0 1", "1.0"]

/-- A target block whose data holds a non-numeric token. -/
def c7BadData : List String :=
  ["BEGIN_BLOCK_DATAGRID_3D", "g", "BEGIN_DATAGRID_3D_g",
   "1 1 1", "0 0 0", "1 0 0", "0 1 0", "0 0 1", "abc",
   "END_DATAGRID_3D", "END_BLOCK_DATAGRID_3D"]

/-- A fully well formed single-grid file. -/
def c7Good : List String :=
  ["BEGIN_BLOCK_DATAGRID_3D", "g", "BEGIN_DATAGRID_3D_g",
   "1 1 2", "0 0 0", "1 0 0", "0 1 0", "0 0 1", "1.0 3.0",
   "END_DATAGRID_3D", "END_BLOCK_DATAGRID_3D"]

/-- A target `BEGIN_DATAGRID_3D` whose dimension line holds a non-integer
token, but with fewer than 5 lines after the dimension line. -/
def c10short : List String :=
  ["BEGIN_BLOCK_DATAGRID_3D", "g", "BEGIN_DATAGRID_3D_g", "2 X 2"]

/-- A target dimension line with a non-integer token and enough following
lines for the structural length check to pass. -/
def c10badTok : List String :=
  ["BEGIN_BLOCK_DATAGRID_3D", "g", "BEGIN_DATAGRID_3D_g",
   "2 X 2", "0 0 0", "1 0 0", "0 1 0", "0 0 1", "1.0",
   "END_DATAGRID_3D", "END_BLOCK_DATAGRID_3D"]

/-- A target dimension line with two integer tokens instead of three, in an
otherwise fully parsed block. -/
def c10arity : List String :=
  ["BEGIN_BLOCK_DATAGRID_3D", "g", "BEGIN_DATAGRID_3D_g",
   "2 2", "0 0 0", "1 0 0", "0 1 0", "0 0 1", "1.0 2.0 3.0 4.0",
   "END_DATAGRID_3D", "END_BLOCK_DATAGRID_3D"]

theorem getD_range_map {α : Type} (f : Nat → α) (d : α) {n i : Nat} (h : i < n) :
    ((List.range n).map f).getD i d = f i := by
  rw [List.getD_eq_getElem _ _ (by simpa using h)]
  simp

theorem getD_map_of_lt {α β : Type} (f : α → β) (l : List α) (d : α) (d' : β)
    {i : Nat} (h : i < l.length) : (l.map f).getD i d' = f (l.getD i d) := by
  rw [List.getD_eq_getElem _ _ (by simpa using h), List.getElem_map,
      List.getD_eq_getElem _ _ h]

theorem length_rotRight (s : Nat) (l : List α) :
    (rotRight s l).length = l.length := by
  unfold rotRight
  generalize s % l.length = k
  simp only [List.length_append, List.length_drop, List.length_take]
  omega

theorem rotRight_eq_rotate (s : Nat) (l : List α) :
    rotRight s l = l.rotate (l.length - s % l.length) :=
  (List.rotate_eq_drop_append_take (Nat.sub_le _ _)).symm

theorem getD_rotRight (s : Nat) (l : List α) (d : α) {i : Nat}
    (h : i < l.length) :
    (rotRight s l).getD i d =
      l.getD ((i + (l.length - s % l.length)) % l.length) d := by
  have hpos : 0 < l.length := Nat.pos_of_ne_zero (by omega)
  have hlen : i < (l.rotate (l.length - s % l.length)).length := by
    rwa [List.length_rotate]
  rw [rotRight_eq_rotate, List.getD_eq_getElem _ _ hlen, List.getElem_rotate,
      List.getD_eq_getElem _ _ (Nat.mod_lt _ hpos)]

theorem fIdx_lt {nx ny nz x y z : Nat} (hx : x < nx) (hy : y < ny)
    (hz : z < nz) : fIdx nx ny x y z < nx * ny * nz := by
  unfold fIdx
  calc x + y * nx + z * (nx * ny) < nx + y * nx + z * (nx * ny) := by omega
    _ = (y + 1) * nx + z * (nx * ny) := by ring
    _ ≤ ny * nx + z * (nx * ny) := by
          have h2 : (y + 1) * nx ≤ ny * nx := Nat.mul_le_mul_right nx hy
          omega
    _ = (z + 1) * (nx * ny) := by ring
    _ ≤ nz * (nx * ny) := Nat.mul_le_mul_right _ hz
    _ = nx * ny * nz := by ring

theorem fIdx_digits {nx ny nz x y z : Nat} (hx : x < nx) (hy : y < ny)
    (_hz : z < nz) :
    fIdx nx ny x y z % nx = x ∧ fIdx nx ny x y z / nx % ny = y ∧
      fIdx nx ny x y z / (nx * ny) = z := by
  have hk : fIdx nx ny x y z = x + nx * (y + ny * z) := by unfold fIdx; ring
  have hk2 : fIdx nx ny x y z = (x + nx * y) + nx * ny * z := by unfold fIdx; ring
  have hnx : 0 < nx := by omega
  have hny : 0 < ny := by omega
  refine ⟨?_, ?_, ?_⟩
  · rw [hk, Nat.add_mul_mod_self_left, Nat.mod_eq_of_lt hx]
  · rw [hk, Nat.add_mul_div_left _ _ hnx, Nat.div_eq_of_lt hx, Nat.zero_add,
        Nat.add_mul_mod_self_left, Nat.mod_eq_of_lt hy]
  · have hlt : x + nx * y < nx * ny := by
      calc x + nx * y < nx + nx * y := by omega
        _ = nx * (y + 1) := by ring
        _ ≤ nx * ny := Nat.mul_le_mul_left _ hy
    rw [hk2, Nat.add_mul_div_left _ _ (Nat.mul_pos hnx hny),
        Nat.div_eq_of_lt hlt, Nat.zero_add]

theorem fIdx_recompose (nx ny i : Nat) :
    fIdx nx ny (i % nx) (i / nx % ny) (i / (nx * ny)) = i := by
  unfold fIdx
  have h3 : i / nx / ny = i / (nx * ny) := Nat.div_div_eq_div_mul i nx ny
  calc i % nx + i / nx % ny * nx + i / (nx * ny) * (nx * ny)
      = i % nx + nx * (i / nx % ny + ny * (i / nx / ny)) := by rw [h3]; ring
    _ = i % nx + nx * (i / nx) := by rw [Nat.mod_add_div]
    _ = i := Nat.mod_add_div i nx

theorem length_reshapeF (nx ny nz : Nat) (d : List ℚ) :
    (reshapeF nx ny nz d).length = nx := by
  simp [reshapeF]

theorem reshapeF_getD {nx ny nz : Nat} (d : List ℚ) {x y z : Nat}
    (hx : x < nx) (hy : y < ny) (hz : z < nz) :
    (((reshapeF nx ny nz d).getD x []).getD y []).getD z 0 =
      d.getD (fIdx nx ny x y z) 0 := by
  unfold reshapeF
  rw [getD_range_map _ _ hx, getD_range_map _ _ hy, getD_range_map _ _ hz]

theorem flattenF_getD {nx ny nz : Nat} (a : List (List (List ℚ))) {x y z : Nat}
    (hx : x < nx) (hy : y < ny) (hz : z < nz) :
    (flattenF nx ny nz a).getD (fIdx nx ny x y z) 0 =
      ((a.getD x []).getD y []).getD z 0 := by
  unfold flattenF
  rw [getD_range_map _ _ (fIdx_lt hx hy hz)]
  obtain ⟨h1, h2, h3⟩ := fIdx_digits hx hy hz
  rw [h1, h2, h3]

theorem roll3_reshapeF_getD {nx ny nz sx sy sz : Nat} (d : List ℚ) {x y z : Nat}
    (hx : x < nx) (hy : y < ny) (hz : z < nz) :
    (((roll3 sx sy sz (reshapeF nx ny nz d)).getD x []).getD y []).getD z 0 =
      d.getD (fIdx nx ny ((x + (nx - sx % nx)) % nx) ((y + (ny - sy % ny)) % ny)
        ((z + (nz - sz % nz)) % nz)) 0 := by
  have hnx : 0 < nx := by omega
  have hny : 0 < ny := by omega
  have hnz : 0 < nz := by omega
  have hlenA : (reshapeF nx ny nz d).length = nx := length_reshapeF nx ny nz d
  have hx2 : x < (rotRight sx (reshapeF nx ny nz d)).length := by
    rw [length_rotRight, hlenA]; exact hx
  have hx3 : (x + (nx - sx % nx)) % nx < nx := Nat.mod_lt _ hnx
  unfold roll3
  rw [getD_map_of_lt _ _ [] _ hx2, getD_rotRight _ _ _ (by rw [hlenA]; exact hx),
      hlenA]
  unfold reshapeF
  rw [getD_range_map _ _ hx3]
  have hlenP : ((List.range ny).map fun b => (List.range nz).map fun c =>
      d.getD (fIdx nx ny ((x + (nx - sx % nx)) % nx) b c) 0).length = ny := by
    simp
  have hy2 : y < (rotRight sy ((List.range ny).map fun b =>
      (List.range nz).map fun c =>
        d.getD (fIdx nx ny ((x + (nx - sx % nx)) % nx) b c) 0)).length := by
    rw [length_rotRight, hlenP]; exact hy
  have hy3 : (y + (ny - sy % ny)) % ny < ny := Nat.mod_lt _ hny
  rw [getD_map_of_lt _ _ [] _ hy2,
      getD_rotRight sy ((List.range ny).map fun b => (List.range nz).map fun c =>
        d.getD (fIdx nx ny ((x + (nx - sx % nx)) % nx) b c) 0) []
        (by rw [hlenP]; exact hy),
      hlenP, getD_range_map _ _ hy3]
  have hlenR : ((List.range nz).map fun c =>
      d.getD (fIdx nx ny ((x + (nx - sx % nx)) % nx) ((y + (ny - sy % ny)) % ny) c) 0).length
        = nz := by simp
  have hz3 : (z + (nz - sz % nz)) % nz < nz := Nat.mod_lt _ hnz
  rw [getD_rotRight sz ((List.range nz).map fun c =>
        d.getD (fIdx nx ny ((x + (nx - sx % nx)) % nx) ((y + (ny - sy % ny)) % ny) c) 0) 0
        (by rw [hlenR]; exact hz),
      hlenR, getD_range_map _ _ hz3]

theorem emod_shift_bridge {x s n : Nat} (_hx : x < n) (hs : s < n) :
    (((x : Int) - s) % n).toNat = (x + (n - s)) % n := by
  have h1 : (x : Int) - s = ((x + (n - s) : Nat) : Int) - n := by
    push_cast [Nat.cast_sub hs.le]
    ring
  have h2 : (((x + (n - s) : Nat) : Int) - n) % n = ((x + (n - s)) % n : Nat) := by
    rw [Int.sub_emod, Int.emod_self, sub_zero, Int.emod_emod_of_dvd _ dvd_rfl]
    push_cast
    rfl
  rw [h1, h2]
  exact Int.toNat_natCast _

/-- C1: for every target grid of dimensions `(Nx, Ny, Nz)` with reconciled
data `d`, the shifted grid satisfies
`output(x,y,z) = input((x - sx) mod Nx, (y - sy) mod Ny, (z - sz) mod Nz)`
for all in-range `(x,y,z)`, with shift `(sx,sy,sz) = (Nx/2, Ny/2, Nz/2)` by
integer floor division — the composition `reshape` / `np.roll` / `flatten`
performed at source lines 225-268. -/
theorem c1_shift_semantics {nx ny nz : Nat} (d : List ℚ) {x y z : Nat}
    (hx : x < nx) (hy : y < ny) (hz : z < nz) :
    (flattenF nx ny nz (roll3 (nx / 2) (ny / 2) (nz / 2)
        (reshapeF nx ny nz d))).getD (fIdx nx ny x y z) 0 =
      d.getD (fIdx nx ny (((x : Int) - (nx / 2 : Nat)) % (nx : Int)).toNat
                         (((y : Int) - (ny / 2 : Nat)) % (ny : Int)).toNat
                         (((z : Int) - (nz / 2 : Nat)) % (nz : Int)).toNat) 0 := by
  have hnx : 0 < nx := by omega
  have hny : 0 < ny := by omega
  have hnz : 0 < nz := by omega
  have hsx : nx / 2 < nx := Nat.div_lt_self hnx one_lt_two
  have hsy : ny / 2 < ny := Nat.div_lt_self hny one_lt_two
  have hsz : nz / 2 < nz := Nat.div_lt_self hnz one_lt_two
  rw [flattenF_getD _ hx hy hz, roll3_reshapeF_getD d hx hy hz,
      emod_shift_bridge hx hsx, emod_shift_bridge hy hsy,
      emod_shift_bridge hz hsz, Nat.mod_eq_of_lt hsx, Nat.mod_eq_of_lt hsy,
      Nat.mod_eq_of_lt hsz]

theorem c1_shift_semantics_witness :
    (0 : Nat) < 2 ∧
      (flattenF 2 2 2 (roll3 (2 / 2) (2 / 2) (2 / 2)
          (reshapeF 2 2 2 qDat8))).getD (fIdx 2 2 0 0 0) 0 =
        qDat8.getD (fIdx 2 2 (((0 : Int) - (2 / 2 : Nat)) % (2 : Int)).toNat
                             (((0 : Int) - (2 / 2 : Nat)) % (2 : Int)).toNat
                             (((0 : Int) - (2 / 2 : Nat)) % (2 : Int)).toNat) 0 :=
  ⟨by decide, c1_shift_semantics qDat8 (by decide) (by decide) (by decide)⟩

/-- C2: the 3D addressing places element `(x,y,z)` at flat index
`x + y*Nx + z*Nx*Ny` (Fortran order), and re-flattening uses the same
convention, so flattening the reshaped array is the identity on the flat
sequence. -/
theorem c2_fortran_order {nx ny nz : Nat} (d : List ℚ) :
    (∀ x y z, x < nx → y < ny → z < nz →
      (((reshapeF nx ny nz d).getD x []).getD y []).getD z 0 =
        d.getD (x + y * nx + z * (nx * ny)) 0) ∧
    (d.length = nx * ny * nz →
      flattenF nx ny nz (reshapeF nx ny nz d) = d) := by
  constructor
  · intro x y z hx hy hz
    rw [reshapeF_getD d hx hy hz]
    rfl
  · intro hlen
    apply List.ext_getElem
    · simp [flattenF, hlen]
    · intro i h1 h2
      have hi : i < nx * ny * nz := by rw [← hlen]; exact h2
      have h0 : 0 < nx * ny * nz := by omega
      have hnx : 0 < nx := by
        rcases Nat.eq_zero_or_pos nx with h | h
        · subst h; simp at h0
        · exact h
      have hny : 0 < ny := by
        rcases Nat.eq_zero_or_pos ny with h | h
        · subst h; simp at h0
        · exact h
      have hxb : i % nx < nx := Nat.mod_lt _ hnx
      have hyb : i / nx % ny < ny := Nat.mod_lt _ hny
      have hzb : i / (nx * ny) < nz := by
        rw [Nat.div_lt_iff_lt_mul (Nat.mul_pos hnx hny)]
        rw [Nat.mul_comm]
        exact hi
      rw [← List.getD_eq_getElem _ 0 h1, ← List.getD_eq_getElem _ 0 h2]
      calc (flattenF nx ny nz (reshapeF nx ny nz d)).getD i 0
          = (flattenF nx ny nz (reshapeF nx ny nz d)).getD
              (fIdx nx ny (i % nx) (i / nx % ny) (i / (nx * ny))) 0 := by
            rw [fIdx_recompose]
        _ = (((reshapeF nx ny nz d).getD (i % nx) []).getD (i / nx % ny) []).getD
              (i / (nx * ny)) 0 := flattenF_getD _ hxb hyb hzb
        _ = d.getD (fIdx nx ny (i % nx) (i / nx % ny) (i / (nx * ny))) 0 :=
            reshapeF_getD d hxb hyb hzb
        _ = d.getD i 0 := by rw [fIdx_recompose]

theorem c2_fortran_order_witness :
    (0 : Nat) < 2 ∧ qDat8.length = 2 * 2 * 2 ∧
      (((reshapeF 2 2 2 qDat8).getD 1 []).getD 1 []).getD 1 0 =
        qDat8.getD (1 + 1 * 2 + 1 * (2 * 2)) 0 ∧
      flattenF 2 2 2 (reshapeF 2 2 2 qDat8) = qDat8 :=
  ⟨by decide, by decide,
   (c2_fortran_order qDat8).1 1 1 1 (by decide) (by decide) (by decide),
   (c2_fortran_order qDat8).2 (by decide)⟩

/-- C9: on an axis of even extent `N`, applying the periodic shift by `N/2`
twice is the identity; on an axis of odd extent the composition differs from
the identity by one cell. -/
theorem c9_double_shift (l : List ℚ) (n : Nat) (hl : l.length = n) :
    (n % 2 = 0 → rotRight (n / 2) (rotRight (n / 2) l) = l) ∧
    (n % 2 = 1 → ∀ i, i < n →
      (rotRight (n / 2) (rotRight (n / 2) l)).getD i 0 =
        l.getD ((i + 1) % n) 0) := by
  constructor
  · intro hev
    rcases Nat.eq_zero_or_pos n with h0 | hpos
    · subst h0
      have hnil : l = [] := List.eq_nil_of_length_eq_zero hl
      subst hnil
      rfl
    · have hs : n / 2 < n := Nat.div_lt_self hpos one_lt_two
      have hs2 : n / 2 % n = n / 2 := Nat.mod_eq_of_lt hs
      have hl2 : (rotRight (n / 2) l).length = n := by rw [length_rotRight, hl]
      rw [rotRight_eq_rotate (n / 2) (rotRight (n / 2) l), hl2,
          rotRight_eq_rotate (n / 2) l, hl, hs2, List.rotate_rotate]
      have hsum : n - n / 2 + (n - n / 2) = n := by omega
      rw [hsum, ← hl, List.rotate_length]
  · intro hodd i hi
    have hpos : 0 < n := by omega
    have hs : n / 2 < n := Nat.div_lt_self hpos one_lt_two
    have hs2 : n / 2 % n = n / 2 := Nat.mod_eq_of_lt hs
    have hl2 : (rotRight (n / 2) l).length = n := by rw [length_rotRight, hl]
    have hi2 : i < (rotRight (n / 2) l).length := by rw [hl2]; exact hi
    rw [getD_rotRight _ _ _ hi2, hl2, hs2]
    have hi3 : (i + (n - n / 2)) % n < l.length := by
      rw [hl]; exact Nat.mod_lt _ hpos
    rw [getD_rotRight _ _ _ hi3, hl, hs2]
    congr 1
    have h4 : (i + (n - n / 2)) + (n - n / 2) = i + 1 + n := by omega
    rw [Nat.mod_add_mod, h4, Nat.add_mod_right]

theorem c9_double_shift_witness :
    ([(1 : ℚ), 2, 3, 4].length = 4 ∧
      rotRight (4 / 2) (rotRight (4 / 2) [(1 : ℚ), 2, 3, 4]) =
        [(1 : ℚ), 2, 3, 4]) ∧
    ([(1 : ℚ), 2, 3].length = 3 ∧ (0 : Nat) < 3 ∧
      (rotRight (3 / 2) (rotRight (3 / 2) [(1 : ℚ), 2, 3])).getD 0 0 =
        [(1 : ℚ), 2, 3].getD ((0 + 1) % 3) 0) :=
  ⟨⟨by decide, (c9_double_shift [(1 : ℚ), 2, 3, 4] 4 (by decide)).1 (by decide)⟩,
   ⟨by decide, by decide,
    (c9_double_shift [(1 : ℚ), 2, 3] 3 (by decide)).2 (by decide) 0 (by decide)⟩⟩

theorem maxAbs_cons (x : ℚ) (xs : List ℚ) :
    maxAbs (x :: xs) = max |x| (maxAbs xs) := rfl

theorem le_maxAbs {d : List ℚ} {v : ℚ} (h : v ∈ d) : |v| ≤ maxAbs d := by
  induction d with
  | nil => cases h
  | cons x xs ih =>
    rcases List.mem_cons.mp h with h1 | h2
    · subst h1; rw [maxAbs_cons]; exact le_max_left _ _
    · rw [maxAbs_cons]; exact le_max_of_le_right (ih h2)

theorem maxAbs_map_mul (c : ℚ) (hc : 0 ≤ c) (d : List ℚ) :
    maxAbs (d.map fun v => v * c) = maxAbs d * c := by
  induction d with
  | nil => simp [maxAbs]
  | cons x xs ih =>
    simp only [List.map_cons, maxAbs_cons, ih]
    rw [abs_mul, abs_of_nonneg hc, ← max_mul_of_nonneg _ _ hc]

/-- C3: the token sequence is reconciled, before numeric parsing, to exactly
`Nx*Ny*Nz` entries — truncated from the end if longer, padded at the end with
the literal string token `"0.0"` if shorter; in particular for `(2,2,2)`, 6
tokens give 8 values ending in two zeros, and 10 tokens give 8 values with
the last 2 input tokens discarded. -/
theorem c3_reconciliation :
    (∀ total toks, (reconcile total toks).length = total) ∧
    (∀ total (toks : List String), toks.length ≤ total →
      reconcile total toks = toks ++ List.replicate (total - toks.length) "0.0") ∧
    (∀ total (toks : List String), total ≤ toks.length →
      reconcile total toks = toks.take total) ∧
    loadData (2 * 2 * 2) toks6 = some [1, 2, 3, 4, 5, 6, 0, 0] ∧
    loadData (2 * 2 * 2) toks10 = some [1, 2, 3, 4, 5, 6, 7, 8] := by
  refine ⟨?_, ?_, ?_, ?_, ?_⟩
  · intro total toks
    unfold reconcile
    split_ifs with h1 h2
    · simp only [List.length_take]; omega
    · simp only [List.length_append, List.length_replicate]; omega
    · omega
  · intro total toks h
    unfold reconcile
    split_ifs with h1 h2
    · omega
    · rfl
    · have he : toks.length = total := not_ne_iff.mp h1
      rw [he]
      simp
  · intro total toks h
    unfold reconcile
    split_ifs with h1 h2
    · rfl
    · omega
    · have he : toks.length = total := not_ne_iff.mp h1
      rw [← he, List.take_length]
  · with_unfolding_all decide
  · with_unfolding_all decide

theorem c3_reconciliation_witness :
    (toks6.length ≤ 8 ∧
      reconcile 8 toks6 = toks6 ++ List.replicate (8 - toks6.length) "0.0") ∧
    (8 ≤ toks10.length ∧ reconcile 8 toks10 = toks10.take 8) ∧
    (reconcile 8 toks6).length = 8 :=
  ⟨⟨by decide, c3_reconciliation.2.1 8 toks6 (by decide)⟩,
   ⟨by decide, c3_reconciliation.2.2.1 8 toks10 (by decide)⟩,
   c3_reconciliation.1 8 toks6⟩

/-- C4: with no caller-supplied factor, the scale factor is `10 / M` for
post-shift max magnitude `M > 0` (and `10` when `M = 0`), so scaling brings
the max magnitude to exactly 10 in exact arithmetic, and an all-zero grid
stays all zero. -/
theorem c4_autoscale (d : List ℚ) :
    (0 < maxAbs d →
      maxAbs (d.map fun v => v * autoScale none (maxAbs d)) = 10) ∧
    (maxAbs d = 0 →
      (∀ v ∈ d, v = 0) ∧
        (d.map fun v => v * autoScale none (maxAbs d)) = d) := by
  constructor
  · intro h
    have hc : autoScale none (maxAbs d) = 10 / maxAbs d := by
      simp [autoScale, h]
    have hc0 : (0 : ℚ) ≤ 10 / maxAbs d := by positivity
    rw [hc, maxAbs_map_mul _ hc0 d]
    field_simp
  · intro h
    have hz : ∀ v ∈ d, v = 0 := by
      intro v hv
      have h1 := le_maxAbs hv
      rw [h] at h1
      exact abs_eq_zero.mp (le_antisymm h1 (abs_nonneg v))
    refine ⟨hz, ?_⟩
    have : ∀ v ∈ d, v * autoScale none (maxAbs d) = v := by
      intro v hv
      rw [hz v hv, zero_mul]
    rw [List.map_congr_left this]
    exact List.map_id' d

theorem c4_autoscale_witness :
    (0 < maxAbs [(2 : ℚ), -4] ∧
      maxAbs ([(2 : ℚ), -4].map fun v =>
        v * autoScale none (maxAbs [(2 : ℚ), -4])) = 10) ∧
    (maxAbs [(0 : ℚ), 0] = 0 ∧
      ([(0 : ℚ), 0].map fun v =>
        v * autoScale none (maxAbs [(0 : ℚ), 0])) = [(0 : ℚ), 0]) :=
  ⟨⟨by with_unfolding_all decide,
    (c4_autoscale [(2 : ℚ), -4]).1 (by with_unfolding_all decide)⟩,
   ⟨by with_unfolding_all decide,
    ((c4_autoscale [(0 : ℚ), 0]).2 (by with_unfolding_all decide)).2⟩⟩

/-- C5 counterexample: the atom line `6 0.0 0.0 0.0 1.0 2.0 3.0` is NOT
re-emitted as the claimed string `  C   0.000000000   0.000000000   0.000000000`
(the claimed string has the wrong spacing for the stated format: the `<3`
field plus separator and the `>14.9f` padding put 6 spaces after `C` and 4
between coordinates). -/
theorem c5_counterexample :
    rewriteAtomLine "6 0.0 0.0 0.0 1.0 2.0 3.0" ≠
      "  C   0.000000000   0.000000000   0.000000000" := by
  with_unfolding_all decide

/-- C5 (amended): a count line with forces flag `1` is re-emitted with the
flag rewritten to `0`; an atom line with at least 4 tokens whose type token
is an atomic number in the symbol table is re-emitted with the symbol
substituted and only the first 3 coordinate columns kept, per the format
`two spaces, type `<3`, then each coordinate `>14.9f``; in particular
`6 0.0 0.0 0.0 1.0 2.0 3.0` becomes exactly
`  C      0.000000000    0.000000000    0.000000000`. -/
theorem c5_force_strip_amended :
    (∀ prev line p0 rest n, splitWS line = p0 :: "1" :: rest →
      pyInt p0 = some n →
      processCountLine prev line =
        ("  " ++ padRightSp p0 4 ++ " " ++ padLeftSp "0" 5, true, true, n)) ∧
    (∀ p0 n sym, pyInt p0 = some n → elementSymbol n = some sym →
      atomTypeOf p0 = sym) ∧
    (∀ line p0 p1 p2 p3 rest x y z,
      pyFloat p1 = some x → pyFloat p2 = some y → pyFloat p3 = some z →
      rewriteAtomParts line (p0 :: p1 :: p2 :: p3 :: rest) =
        "  " ++ padRightSp (atomTypeOf p0) 3 ++ " " ++
          padLeftSp (formatF9 x) 14 ++ " " ++ padLeftSp (formatF9 y) 14 ++
          " " ++ padLeftSp (formatF9 z) 14) ∧
    processCountLine 0 "2 1" = ("  2        0", true, true, 2) ∧
    rewriteAtomLine "6 0.0 0.0 0.0 1.0 2.0 3.0" =
      "  C      0.000000000    0.000000000    0.000000000" := by
  refine ⟨?_, ?_, ?_, ?_, ?_⟩
  · intro prev line p0 rest n hs hn
    simp [processCountLine, hs, hn]
  · intro p0 n sym h1 h2
    simp [atomTypeOf, h1, h2]
  · intro line p0 p1 p2 p3 rest x y z h1 h2 h3
    simp [rewriteAtomParts, h1, h2, h3]
  · with_unfolding_all decide
  · with_unfolding_all decide

theorem c5_force_strip_amended_witness :
    (splitWS "2 1" = ["2", "1"] ∧ pyInt "2" = some 2 ∧
      processCountLine 7 "2 1" = ("  2        0", true, true, 2)) ∧
    (pyInt "6" = some 6 ∧ elementSymbol 6 = some "C" ∧ atomTypeOf "6" = "C") ∧
    (pyFloat "0.5" = some (1 / 2) ∧
      rewriteAtomParts "w" ["6", "0.5", "0.5", "0.5", "9.9"] =
        "  " ++ padRightSp (atomTypeOf "6") 3 ++ " " ++
          padLeftSp (formatF9 (1 / 2)) 14 ++ " " ++
          padLeftSp (formatF9 (1 / 2)) 14 ++ " " ++
          padLeftSp (formatF9 (1 / 2)) 14) :=
  ⟨⟨by decide, by decide,
    c5_force_strip_amended.1 7 "2 1" "2" [] 2 (by decide) (by decide)⟩,
   ⟨by decide, by decide,
    c5_force_strip_amended.2.1 "6" 6 "C" (by decide) (by decide)⟩,
   ⟨by with_unfolding_all decide,
    c5_force_strip_amended.2.2.1 "w" "6" "0.5" "0.5" "0.5" ["9.9"]
      (1 / 2) (1 / 2) (1 / 2) (by with_unfolding_all decide)
      (by with_unfolding_all decide) (by with_unfolding_all decide)⟩⟩

theorem parseLoop_at_end (lines : List String) (dname : Option String)
    (fuel i : Nat) (s : ParseState) (h : lines.length ≤ i) :
    parseLoop lines dname fuel i s = .ok s := by
  cases fuel with
  | zero => rfl
  | succ f =>
    simp only [parseLoop]
    rw [if_neg (by omega)]

/-- C6 counterexample: in `cex6` the non-target block `g2` has no
`END_DATAGRID_3D` before end of file; the warning is emitted and processing
completes, but the partial body line `ORPHAN_LINE` is in neither the header
nor the footer partition and does not reach the output. -/
theorem c6_counterexample :
    (parsePhase cex6 none).map (fun st =>
      (st.warnings, st.header.contains "ORPHAN_LINE",
        st.footer.contains "ORPHAN_LINE")) =
      .ok (["Warning: Non-target DATAGRID_3D block seems incomplete."],
        false, false) ∧
    (processXsf cex6 none none).map (fun out => out.contains "ORPHAN_LINE") =
      .ok false := by
  with_unfolding_all decide

/-- C6 (amended): when a non-target grid block lacks its own
`END_DATAGRID_3D` before end of file, processing does not abort and a
warning is emitted, but the partial body is only buffered in
`current_block_lines` and then dropped: header and footer partitions are
left exactly as they were, so those lines do not reach the output. -/
theorem c6_incomplete_nontarget_amended (lines : List String)
    (dname : Option String) (fuel i : Nat) (s : ParseState)
    (hi : i < lines.length)
    (hb : strContains (lines.getD i "") "BEGIN_BLOCK_DATAGRID_3D" = false)
    (hd : strContains (lines.getD i "") "BEGIN_DATAGRID_3D" = true)
    (hin : s.inBlock = true) (hnt : s.inTarget = false)
    (heof : (scanTo lines lines.length (i + 1)).2 = lines.length) :
    parseLoop lines dname (fuel + 1) i s = .ok { s with
      curBlock := (s.curBlock ++ [lines.getD i ""]) ++
        (scanTo lines lines.length (i + 1)).1,
      warnings := s.warnings ++
        ["Warning: Non-target DATAGRID_3D block seems incomplete."] } := by
  simp only [parseLoop, hi, if_true, hb, hd, hin, hnt, heof]
  simp only [Bool.false_eq_true, if_false, Bool.true_eq_false, and_true,
    and_false, if_true, lt_irrefl]
  exact parseLoop_at_end _ _ _ _ _ (le_refl _)

theorem c6_incomplete_nontarget_amended_witness :
    (0 : Nat) < (["BEGIN_DATAGRID_3D_g", "ORPHAN"] : List String).length ∧
    strContains "BEGIN_DATAGRID_3D_g" "BEGIN_BLOCK_DATAGRID_3D" = false ∧
    strContains "BEGIN_DATAGRID_3D_g" "BEGIN_DATAGRID_3D" = true ∧
    parseLoop ["BEGIN_DATAGRID_3D_g", "ORPHAN"] none 1 0 { inBlock := true } =
      .ok { inBlock := true, inTarget := false,
            curBlock := ["BEGIN_DATAGRID_3D_g", "ORPHAN"],
            warnings :=
              ["Warning: Non-target DATAGRID_3D block seems incomplete."] } :=
  ⟨by decide, by decide, by decide,
    (c6_incomplete_nontarget_amended ["BEGIN_DATAGRID_3D_g", "ORPHAN"] none 0 0
      { inBlock := true } (by decide) (by decide) (by decide) rfl rfl
      (by decide)).trans (by decide)⟩

theorem unpack3_ok {ds : List Int} {t : Int × Int × Int}
    (h : unpack3 ds = .ok t) : ds = [t.1, t.2.1, t.2.2] := by
  rcases ds with _ | ⟨a, rest⟩
  · simp [unpack3] at h
  rcases rest with _ | ⟨b, rest2⟩
  · simp [unpack3] at h
  rcases rest2 with _ | ⟨c, rest3⟩
  · simp [unpack3] at h
  rcases rest3 with _ | ⟨d, rest4⟩
  · simp only [unpack3] at h
    injection h with h2
    subst h2
    rfl
  · simp [unpack3] at h

/-- C7: every fatal failure — missing input file, target block not found,
unparsed dimensions, missing `END_DATAGRID_3D` in the target block,
non-numeric data token after reconciliation — yields an error with a
descriptive message and no output lines; and output lines exist only when
the parse phase succeeded with a found target, 3 parsed dimensions, a
nonempty grid and numerically parsed reconciled data (the write phase runs
strictly after full validation). -/
theorem c7_fatal_failures :
    (∀ dn sf, runTool none dn sf =
      .error (.msg "Error: Input file not found.")) ∧
    processXsf c7NoTarget none none =
      .error (.msg "Error: Target datagrid not found.") ∧
    processXsf c7NoDims none none =
      .error (.msg "Error: Dimensions for target datagrid could not be parsed.") ∧
    processXsf c7MissingEnd none none =
      .error (.msg "Error: XSF file format error, missing END_DATAGRID_3D") ∧
    processXsf c7BadData none none =
      .error (.msg "Error during data processing: could not convert string to float") ∧
    (∀ lines dn sf out, processXsf lines dn sf = .ok out →
      ∃ st nx ny nz data, parsePhase lines dn = .ok st ∧
        st.foundTarget = true ∧ st.dims = some [nx, ny, nz] ∧
        loadData (nx.toNat * ny.toNat * nz.toNat) st.dataStr = some data ∧
        nx.toNat * ny.toNat * nz.toNat ≠ 0 ∧
        out = renderOutput st (flattenF nx.toNat ny.toNat nz.toNat
          (scale3 (autoScale sf (maxAbs (flattenF nx.toNat ny.toNat nz.toNat
              (roll3 (nx.toNat / 2) (ny.toNat / 2) (nz.toNat / 2)
                (reshapeF nx.toNat ny.toNat nz.toNat data)))))
            (roll3 (nx.toNat / 2) (ny.toNat / 2) (nz.toNat / 2)
              (reshapeF nx.toNat ny.toNat nz.toNat data))))) := by
  refine ⟨fun dn sf => rfl, by with_unfolding_all decide,
    by with_unfolding_all decide, by with_unfolding_all decide,
    by with_unfolding_all decide, ?_⟩
  intro lines dn sf out h
  unfold processXsf at h
  cases hp : parsePhase lines dn with
  | error e => rw [hp] at h; exact absurd h (by simp)
  | ok st =>
    rw [hp] at h
    dsimp only at h
    by_cases hf : st.foundTarget = true
    · rw [if_neg (by simp [hf])] at h
      cases hd : st.dims with
      | none => rw [hd] at h; exact absurd h (by simp)
      | some ds =>
        rw [hd] at h
        dsimp only at h
        cases hu : unpack3 ds with
        | error e => rw [hu] at h; exact absurd h (by simp)
        | ok t =>
          obtain ⟨nx, ny, nz⟩ := t
          rw [hu] at h
          dsimp only at h
          have hds : ds = [nx, ny, nz] := unpack3_ok hu
          by_cases hneg : nx < 0 ∨ ny < 0 ∨ nz < 0
          · rw [if_pos hneg] at h; exact absurd h (by simp)
          · rw [if_neg hneg] at h
            cases hld : loadData (nx.toNat * ny.toNat * nz.toNat) st.dataStr with
            | none => simp only [hld] at h; exact absurd h (by simp)
            | some data =>
              simp only [hld] at h
              by_cases hz : nx.toNat * ny.toNat * nz.toNat = 0
              · rw [if_pos hz] at h; exact absurd h (by simp)
              · rw [if_neg hz] at h
                refine ⟨st, nx, ny, nz, data, rfl, hf, hds ▸ hd, hld, hz, ?_⟩
                simp only [Except.ok.injEq] at h
                exact h.symm
    · rw [if_pos hf] at h
      exact absurd h (by simp)

theorem c7_fatal_failures_witness :
    processXsf c7Good none none = .ok
      ["BEGIN_BLOCK_DATAGRID_3D", "g", "BEGIN_DATAGRID_3D_g", "1 1 2",
       "0 0 0", "1 0 0", "0 1 0", "0 0 1",
       "1.00000000E+01 3.33333333E+00", "END_DATAGRID_3D",
       "END_BLOCK_DATAGRID_3D"] ∧
    (∃ st nx ny nz data, parsePhase c7Good none = .ok st ∧
      st.foundTarget = true ∧ st.dims = some [nx, ny, nz] ∧
      loadData (nx.toNat * ny.toNat * nz.toNat) st.dataStr = some data ∧
      nx.toNat * ny.toNat * nz.toNat ≠ 0 ∧
      (["BEGIN_BLOCK_DATAGRID_3D", "g", "BEGIN_DATAGRID_3D_g", "1 1 2",
        "0 0 0", "1 0 0", "0 1 0", "0 0 1",
        "1.00000000E+01 3.33333333E+00", "END_DATAGRID_3D",
        "END_BLOCK_DATAGRID_3D"] : List String) =
        renderOutput st (flattenF nx.toNat ny.toNat nz.toNat
          (scale3 (autoScale none (maxAbs (flattenF nx.toNat ny.toNat nz.toNat
              (roll3 (nx.toNat / 2) (ny.toNat / 2) (nz.toNat / 2)
                (reshapeF nx.toNat ny.toNat nz.toNat data)))))
            (roll3 (nx.toNat / 2) (ny.toNat / 2) (nz.toNat / 2)
              (reshapeF nx.toNat ny.toNat nz.toNat data))))) :=
  ⟨by with_unfolding_all decide,
   c7_fatal_failures.2.2.2.2.2 c7Good none none _
     (by with_unfolding_all decide)⟩

theorem parseLoop_target_stable (lines : List String) (dname : Option String) :
    ∀ fuel i s s' n, s.foundTarget = true → s.targetName = some n →
      parseLoop lines dname fuel i s = .ok s' →
      s'.foundTarget = true ∧ s'.targetName = some n := by
  intro fuel
  induction fuel with
  | zero =>
    intro i s s' n hf ht h
    injection h with h2
    subst h2
    exact ⟨hf, ht⟩
  | succ f ih =>
    intro i s s' n hf ht h
    by_cases hi : i < lines.length
    · simp only [parseLoop, hi, if_true] at h
      split at h
      all_goals (try (split at h))
      all_goals (try (split at h))
      all_goals (try (split at h))
      all_goals (try (split at h))
      all_goals (try (split at h))
      all_goals (try (split at h))
      all_goals (try (exact Except.noConfusion h))
      all_goals (try (refine ih _ _ _ _ ?_ ?_ h <;> first | exact hf | exact ht))
      all_goals (try (rename_i hcond; exact absurd hf hcond.1))
      all_goals (rename_i hc
                 rcases hc with hc | hc
                 · rw [ht] at hc
                   exact absurd hc (by simp)
                 · rw [ht] at hc
                   injection hc with hc2
                   refine ih _ _ _ _ ?_ ?_ h
                   · exact hf
                   · rw [hc2])
    · rw [parseLoop_at_end _ _ _ _ _ (by omega)] at h
      injection h with h2
      subst h2
      exact ⟨hf, ht⟩

/-- C8: the target, once selected, never changes — the parse loop preserves
a set `found_target_grid` flag and the selected `target_grid_name`
(first match wins); concretely, on a file with blocks `density` then
`potential`, requesting `potential` selects the second block's data while
the first block's body passes through verbatim into the header partition,
and requesting nothing selects the first block. -/
theorem c8_target_selection :
    (∀ (lines : List String) (dname : Option String) fuel i s s' n,
      s.foundTarget = true → s.targetName = some n →
      parseLoop lines dname fuel i s = .ok s' →
      s'.foundTarget = true ∧ s'.targetName = some n) ∧
    (parsePhase twoBlocks (some "potential")).map (fun st =>
      (st.targetName, st.dataStr, st.header, st.footer)) =
      .ok (some "potential",
        ["10.0", "20.0", "30.0", "40.0", "50.0", "60.0", "70.0", "80.0"],
        ["HDR", "BEGIN_BLOCK_DATAGRID_3D", "density", "BEGIN_DATAGRID_3D_density",
         "2 2 2", "0 0 0", "1 0 0", "0 1 0", "0 0 1",
         "1.0 2.0 3.0 4.0", "5.0 6.0 7.0 8.0",
         "END_DATAGRID_3D", "END_BLOCK_DATAGRID_3D"],
        ["TAIL"]) ∧
    (parsePhase twoBlocks none).map (fun st => (st.targetName, st.dataStr)) =
      .ok (some "density",
        ["1.0", "2.0", "3.0", "4.0", "5.0", "6.0", "7.0", "8.0"]) :=
  ⟨parseLoop_target_stable, by with_unfolding_all decide,
   by with_unfolding_all decide⟩

theorem c8_target_selection_witness :
    ({ foundTarget := true, targetName := some "g" } : ParseState).foundTarget
        = true ∧
    parseLoop [] none 1 0 { foundTarget := true, targetName := some "g" } =
      .ok { foundTarget := true, targetName := some "g" } ∧
    (({ foundTarget := true, targetName := some "g" } : ParseState).foundTarget
        = true ∧
      ({ foundTarget := true, targetName := some "g" } : ParseState).targetName
        = some "g") :=
  ⟨rfl, by decide,
   c8_target_selection.1 [] none 1 0
     { foundTarget := true, targetName := some "g" }
     { foundTarget := true, targetName := some "g" } "g" rfl rfl (by decide)⟩

theorem intList_none {ts : List String} {t : String} (hm : t ∈ ts)
    (hp : pyInt t = none) : intList ts = none := by
  induction ts with
  | nil => cases hm
  | cons a rest ih =>
    rcases List.mem_cons.mp hm with h1 | h2
    · subst h1
      simp [intList, hp]
    · unfold intList
      rw [ih h2]
      cases pyInt a <;> rfl

/-- C10 counterexample: `c10short` has a non-integer token (`X`) on the line
immediately after the target `BEGIN_DATAGRID_3D`, yet the tool returns the
descriptive structural error (the `i + 5 < len(lines)` length check fails
first), not an unhandled exception. -/
theorem c10_counterexample :
    pyInt "X" = none ∧ "X" ∈ splitWS (c10short.getD 3 "") ∧
    processXsf c10short none none =
      .error (.msg "Error: XSF file format error, missing grid dimension/vector info") := by
  with_unfolding_all decide

/-- C10 (amended): provided at least 5 lines follow the target dimension
line, a token `int` rejects raises an unhandled `ValueError` at the
conversion (source line 123), and when the block otherwise parses, a token
count other than 3 raises an unhandled `ValueError` at the tuple unpacking
(source line 207); in both cases no output is produced. -/
theorem c10_dimension_parse_amended :
    (∀ dimLine t, t ∈ splitWS dimLine → pyInt t = none →
      parseDims dimLine = .error (.exn "ValueError: invalid literal for int")) ∧
    (∀ ds : List Int, ds.length ≠ 3 →
      unpack3 ds =
        .error (.exn "ValueError: cannot unpack grid_dimensions into Nx, Ny, Nz")) ∧
    processXsf c10badTok none none =
      .error (.exn "ValueError: invalid literal for int") ∧
    processXsf c10arity none none =
      .error (.exn "ValueError: cannot unpack grid_dimensions into Nx, Ny, Nz") := by
  refine ⟨?_, ?_, by with_unfolding_all decide, by with_unfolding_all decide⟩
  · intro dimLine t hm hp
    unfold parseDims
    rw [intList_none hm hp]
  · intro ds hlen
    rcases ds with _ | ⟨a, _ | ⟨b, _ | ⟨c, _ | ⟨d, rest⟩⟩⟩⟩ <;>
      first | rfl | (exact absurd rfl hlen)

theorem c10_dimension_parse_amended_witness :
    ("X" ∈ splitWS "2 X 2" ∧ pyInt "X" = none ∧
      parseDims "2 X 2" =
        .error (.exn "ValueError: invalid literal for int")) ∧
    (([2, 2] : List Int).length ≠ 3 ∧
      unpack3 [2, 2] =
        .error (.exn "ValueError: cannot unpack grid_dimensions into Nx, Ny, Nz")) :=
  ⟨⟨by decide, by decide,
    c10_dimension_parse_amended.1 "2 X 2" "X" (by decide) (by decide)⟩,
   ⟨by decide, c10_dimension_parse_amended.2.1 [2, 2] (by decide)⟩⟩
